import Mathlib

/-!
Verification of the SharQ orchestrator (`sharq/queue.py`) against its
specification. The orchestrator source is embedded shallowly below; the
collaborators that the repository keeps outside this file (`sharq/utils.py`
and the Lua scripts under `sharq/scripts/lua/`) are modelled from the spec,
each marked `Modelled from the spec:` in its doc comment.

Conventions of the embedding:
  times and scores are `Int` epoch milliseconds; Redis hashes and key spaces
  are association lists; Redis sets are lists used up to membership; sorted
  sets are lists of member-score pairs; a Python exception is an `Except`
  error value; the Python `dict` responses are association lists from field
  name to value.
-/

set_option autoImplicit false

namespace Sharq

/-- Modelled from the spec: `sharq.utils.is_valid_identifier` is not under the
sources. Spec 4.1: non-empty, letters, digits, underscore and hyphen only,
bounded length (the bound is taken as 100 characters). -/
def is_valid_identifier (s : String) : Bool :=
  decide (0 < s.length) && decide (s.length ≤ 100) &&
    s.data.all (fun c => c.isAlphanum || c == '_' || c == '-')

/-- Modelled from the spec: `sharq.utils.is_valid_interval` is not under the
sources. Spec 4.1: an integer, at least the policy floor of 1000 ms and at
most 2^31 - 1. -/
def is_valid_interval (n : Int) : Bool :=
  decide (1000 ≤ n) && decide (n ≤ 2 ^ 31 - 1)

/-- Modelled from the spec: the payload codec (`sharq.utils.serialize_payload`
and `deserialize_payload`) is not under the sources. Spec 4.2 treats payloads
as opaque values with `deserialize(serialize(x)) == x` for every accepted `x`
and a serialization failure on unserializable values, so a payload is either
an accepted value carrying its byte-string encoding or an unserializable
value. -/
inductive Payload where
  | str (v : String)
  | unserializable
  deriving DecidableEq

/-- Modelled from the spec: serialization emits the byte string of an accepted
payload and fails with a TypeError message on an unserializable one. -/
def serialize_payload : Payload → Except String String
  | .str v => .ok v
  | .unserializable => .error "payload is not serializable"

/-- Modelled from the spec: deserialization reverses `serialize_payload` on
every accepted payload. -/
def deserialize_payload (s : String) : Payload := .str s

/-- Python string slice `s[1:-1]`: everything strictly between the first and
the last character (used at `queue.py` line 197). -/
def pySlice1m1 (s : String) : String := ((s.data.drop 1).dropLast).asString

/-- The quote wrapping `'"%s"' % serialized_payload` of `queue.py` line 158. -/
def quoteWrap (s : String) : String := "\"" ++ s ++ "\""

/-- First component of a Python `tok.split(':')`: the part of the token before
the first colon (`queue.py` line 368 and the requeue script). -/
def tokenQueueId (tok : String) : String :=
  (tok.data.takeWhile (fun c => c ≠ ':')).asString

/-- Remainder of a `"Q:J"` token after the first colon. -/
def tokenJobId (tok : String) : String :=
  ((tok.data.dropWhile (fun c => c ≠ ':')).drop 1).asString

/-- A Redis sorted set, as a list of member-score pairs with distinct
members. -/
abbrev SortedSet := List (String × Int)

/-- Score of a member of a sorted set, `ZSCORE`. -/
def zscore (z : SortedSet) (m : String) : Option Int :=
  (z.find? (fun p => p.1 == m)).map (fun p => p.2)

/-- Remove a member from a sorted set, `ZREM`. -/
def zrem (z : SortedSet) (m : String) : SortedSet :=
  z.filter (fun p => p.1 != m)

/-- Insert or re-score a member of a sorted set, `ZADD`. -/
def zadd (z : SortedSet) (m : String) (sc : Int) : SortedSet :=
  zrem z m ++ [(m, sc)]

/-- The member-score pair with the least score, ties broken by the
lexicographically least member, as Redis orders sorted sets. -/
def zleast : SortedSet → Option (String × Int)
  | [] => none
  | p :: ps =>
    some (ps.foldl
      (fun b q => if q.2 < b.2 || (q.2 == b.2 && decide (q.1 < b.1)) then q else b) p)

/-- Ordering of sorted-set entries: by score, then lexicographically. -/
def zOrder (p q : String × Int) : Bool :=
  p.2 < q.2 || (p.2 == q.2 && decide (p.1 ≤ q.1))

/-- Insertion step of the sorted-set ordering. -/
def zinsert (p : String × Int) : SortedSet → SortedSet
  | [] => [p]
  | q :: qs => if zOrder p q then p :: q :: qs else q :: zinsert p qs

/-- Sort a sorted set into its `ZRANGE` order. -/
def zsort : SortedSet → SortedSet
  | [] => []
  | p :: ps => zinsert p (zsort ps)

/-- All members of a sorted set in order, `ZRANGE key 0 -1`. -/
def zrange (z : SortedSet) : List String := (zsort z).map (fun p => p.1)

/-- An association-list map with string keys, modelling a Redis hash or a
family of keys. -/
abbrev SMap (α : Type) := List (String × α)

/-- Look a key up, `HGET` / `GET`. -/
def mget {α : Type} (m : SMap α) (k : String) : Option α :=
  (m.find? (fun p => p.1 == k)).map (fun p => p.2)

/-- Bind a key, `HSET` / `SET`. -/
def mset {α : Type} (m : SMap α) (k : String) (v : α) : SMap α :=
  m.filter (fun p => p.1 != k) ++ [(k, v)]

/-- Delete a key, `HDEL` / `DEL`. -/
def mdel {α : Type} (m : SMap α) (k : String) : SMap α :=
  m.filter (fun p => p.1 != k)

/-- Python set union `set(a) | set(b)` listed back out, up to the arbitrary
order of a Python set. -/
def setUnion (a b : List String) : List String := (a ++ b).dedup

/-- Modelled from the spec: the backing store's state, spec section 3. Job
lists are keyed `P:T:Q` head first; the payload hash is keyed `T:Q:J`; the
interval hash is keyed `T:Q`; ready sorted sets are keyed `P:T`; active
sorted sets are keyed `P:T:active`; the type registries are the sets
`P:ready:queue_type` and `P:active:queue_type`; counters are keyed
`P:enqueue:<minute>` and friends (their TTL is not modelled). The clock field
is the epoch-millisecond value the next `generate_epoch` call returns. -/
structure Store where
  jobLists : SMap (List String)
  payloadMap : SMap String
  intervalMap : SMap Int
  readySets : SMap SortedSet
  activeSets : SMap SortedSet
  readyTypes : List String
  activeTypes : List String
  counters : SMap Int
  clock : Int
  deriving DecidableEq

/-- The store with no keys, at epoch time zero. -/
def emptyStore : Store := ⟨[], [], [], [], [], [], [], [], 0⟩

/-- Modelled from the spec: `sharq.utils.generate_epoch` is not under the
sources. Spec 4.3: it returns the current time in integer epoch milliseconds;
in this embedding that is the clock field of the store. -/
def generate_epoch (s : Store) : Int := s.clock

/-- The configuration the orchestrator reads at `_initialize`: the key space
`key_prefix` (field `prefixKey` here) and `job_expire_interval`. -/
structure Config where
  prefixKey : String
  job_expire_interval : Int
  deriving DecidableEq

/-- Modelled from the spec: `scripts/lua/enqueue.lua` is not under the
sources. Spec 4.5.1 with `KEYS = [P, T]` and
`ARGV = [now, Q, J, payload_token, interval]`: bind the interval only when
unbound, append the job, store the payload token, add `Q` to the ready set
with score `now` only when absent, register the type, bump the enqueue
counters for the minute of `now`. -/
def luaEnqueue (P T : String) (now : Int) (Q J payloadToken : String)
    (interval : Int) (s : Store) : Store :=
  let ikey := T ++ ":" ++ Q
  let s := if (mget s.intervalMap ikey).isNone then
      { s with intervalMap := mset s.intervalMap ikey interval } else s
  let lkey := P ++ ":" ++ T ++ ":" ++ Q
  let s := { s with
    jobLists := mset s.jobLists lkey ((mget s.jobLists lkey).getD [] ++ [J]) }
  let pkey := T ++ ":" ++ Q ++ ":" ++ J
  let s := { s with payloadMap := mset s.payloadMap pkey payloadToken }
  let rkey := P ++ ":" ++ T
  let ready := (mget s.readySets rkey).getD []
  let s := if (zscore ready Q).isNone then
      { s with readySets := mset s.readySets rkey (zadd ready Q now) } else s
  let s := if s.readyTypes.contains T then s else
      { s with readyTypes := s.readyTypes ++ [T] }
  let minute := toString (now / 60000)
  let gkey := P ++ ":enqueue:" ++ minute
  let s := { s with counters := mset s.counters gkey ((mget s.counters gkey).getD 0 + 1) }
  let tkey := P ++ ":" ++ T ++ ":" ++ Q ++ ":enqueue:" ++ minute
  { s with counters := mset s.counters tkey ((mget s.counters tkey).getD 0 + 1) }

/-- Modelled from the spec: `scripts/lua/dequeue.lua` is not under the
sources. Spec 4.5.2 with `KEYS = [P, T]` and `ARGV = [now, expire]`: take the
least-scored ready tenant whose score is at most `now` (an empty reply
otherwise), pop its head job, read the payload token, remove the tenant from
the ready set when its list emptied or re-score it to `now` plus its interval
otherwise, drop the type from the ready registry when the ready set emptied,
add the `"Q:J"` token to the active set with score `now + expire`, register
the type as active, bump the dequeue counters, and reply `[Q, J, token]`. An
empty job list under a ready tenant cannot arise (spec invariant 1) and is
answered with the empty reply. -/
def luaDequeue (P T : String) (now : Int) (expire : Int) (s : Store) :
    List String × Store :=
  let rkey := P ++ ":" ++ T
  let ready := (mget s.readySets rkey).getD []
  match zleast ready with
  | none => ([], s)
  | some (Q, sc) =>
    if now < sc then ([], s) else
    let lkey := P ++ ":" ++ T ++ ":" ++ Q
    match (mget s.jobLists lkey).getD [] with
    | [] => ([], s)
    | J :: rest =>
      let pkey := T ++ ":" ++ Q ++ ":" ++ J
      let payloadToken := (mget s.payloadMap pkey).getD ""
      let s := { s with jobLists := mset s.jobLists lkey rest }
      let s :=
        if rest.isEmpty then
          { s with readySets := mset s.readySets rkey (zrem ready Q) }
        else
          let iv : Int := (mget s.intervalMap (T ++ ":" ++ Q)).getD 0
          { s with readySets := mset s.readySets rkey (zadd ready Q (now + iv)) }
      let s := if ((mget s.readySets rkey).getD []).isEmpty then
          { s with readyTypes := s.readyTypes.filter (fun t => t != T) } else s
      let akey := P ++ ":" ++ T ++ ":active"
      let act := (mget s.activeSets akey).getD []
      let s := { s with
        activeSets := mset s.activeSets akey (zadd act (Q ++ ":" ++ J) (now + expire)) }
      let s := if s.activeTypes.contains T then s else
          { s with activeTypes := s.activeTypes ++ [T] }
      let minute := toString (now / 60000)
      let gkey := P ++ ":dequeue:" ++ minute
      let s := { s with counters := mset s.counters gkey ((mget s.counters gkey).getD 0 + 1) }
      let tkey := P ++ ":" ++ T ++ ":" ++ Q ++ ":dequeue:" ++ minute
      let s := { s with counters := mset s.counters tkey ((mget s.counters tkey).getD 0 + 1) }
      ([Q, J, payloadToken], s)

/-- Modelled from the spec: `scripts/lua/finish.lua` is not under the
sources. Spec 4.5.3 with `KEYS = [P, T]` and `ARGV = [Q, J]`: when the
`"Q:J"` token is absent from the active set reply `0` touching nothing;
otherwise remove it, delete the payload, drop the type from the active
registry when the active set emptied, and reply `1`. -/
def luaFinish (P T Q J : String) (s : Store) : Int × Store :=
  let akey := P ++ ":" ++ T ++ ":active"
  let act := (mget s.activeSets akey).getD []
  let token := Q ++ ":" ++ J
  if (zscore act token).isNone then (0, s)
  else
    let act := zrem act token
    let s := { s with activeSets := mset s.activeSets akey act }
    let s := { s with payloadMap := mdel s.payloadMap (T ++ ":" ++ Q ++ ":" ++ J) }
    let s := if act.isEmpty then
        { s with activeTypes := s.activeTypes.filter (fun t => t != T) } else s
    (1, s)

/-- Modelled from the spec: `scripts/lua/interval.lua` is not under the
sources. Spec 4.5.4: when the tenant has neither a job list nor an interval
binding reply `0`; otherwise bind the interval and reply `1`. The script's
keys are the interval hash `P:interval` and the field `T:Q`; the embedding
receives `P`, `T` and `Q` and rebuilds both. -/
def luaInterval (P T Q : String) (interval : Int) (s : Store) : Int × Store :=
  let field := T ++ ":" ++ Q
  let lkey := P ++ ":" ++ T ++ ":" ++ Q
  if ((mget s.jobLists lkey).getD []).isEmpty && (mget s.intervalMap field).isNone
  then (0, s)
  else (1, { s with intervalMap := mset s.intervalMap field interval })

/-- Requeue of one expired `"Q:J"` token, spec 4.5.5 steps 1 to 4: remove it
from the active set, prepend the job to its list, add the tenant to the ready
set with score `now` only when absent, and maintain the type registries. -/
def requeueOne (P T : String) (now : Int) (tok : String) (s : Store) : Store :=
  let Q := tokenQueueId tok
  let J := tokenJobId tok
  let akey := P ++ ":" ++ T ++ ":active"
  let s := { s with
    activeSets := mset s.activeSets akey (zrem ((mget s.activeSets akey).getD []) tok) }
  let lkey := P ++ ":" ++ T ++ ":" ++ Q
  let s := { s with jobLists := mset s.jobLists lkey (J :: (mget s.jobLists lkey).getD []) }
  let rkey := P ++ ":" ++ T
  let ready := (mget s.readySets rkey).getD []
  let s := if (zscore ready Q).isNone then
      { s with readySets := mset s.readySets rkey (zadd ready Q now) } else s
  let s := if s.readyTypes.contains T then s else
      { s with readyTypes := s.readyTypes ++ [T] }
  if ((mget s.activeSets akey).getD []).isEmpty then
    { s with activeTypes := s.activeTypes.filter (fun t => t != T) } else s

/-- Modelled from the spec: `scripts/lua/requeue.lua` is not under the
sources. Spec 4.5.5 with `KEYS = [P, T]` and `ARGV = [now]`: requeue every
member of the active set whose expiry score is at most `now`. -/
def luaRequeue (P T : String) (now : Int) (s : Store) : Store :=
  let akey := P ++ ":" ++ T ++ ":active"
  let act := (mget s.activeSets akey).getD []
  let expired := act.filter (fun p => decide (p.2 ≤ now))
  expired.foldl (fun st p => requeueOne P T now p.1 st) s

/-- Modelled from the spec: `scripts/lua/metrics.lua` is not under the
sources. Spec 4.6: for the key base `P` (global) or `P:T:Q` (per tenant) it
reads the enqueue and the dequeue counter of the ten most recent minute
buckets; a missing counter counts 0, as the Python `int(x or 0)` decoding of
the reply does. The flat alternating minute-count reply and its pairwise
decoding at `queue.py` are folded into one list of pairs. -/
def luaMetrics (base : String) (now : Int) (s : Store) :
    List (Int × Int) × List (Int × Int) :=
  let minutes := (List.range 10).map (fun i => (now / 60000 - Int.ofNat i) * 60000)
  (minutes.map (fun m => (m, (mget s.counters (base ++ ":enqueue:" ++ toString m)).getD 0)),
   minutes.map (fun m => (m, (mget s.counters (base ++ ":dequeue:" ++ toString m)).getD 0)))

/-- A value of a response field: a string, a payload, an integer, a list of
names, or a list of minute-count pairs. -/
inductive RVal where
  | s (v : String)
  | pl (v : Payload)
  | n (v : Int)
  | ls (v : List String)
  | counts (v : List (Int × Int))
  deriving DecidableEq

/-- A response dict of the orchestrator, as an association list from field
name to value. -/
abbrev Response := List (String × RVal)

/-- The typed errors of `sharq.exceptions` raised by the orchestrator. -/
inductive SharqError where
  | badArgument (msg : String)
  deriving DecidableEq

/-- Equality of orchestrator results is decidable. -/
instance {ε α : Type} [DecidableEq ε] [DecidableEq α] : DecidableEq (Except ε α) :=
  fun a b =>
    match a, b with
    | .ok x, .ok y =>
      if h : x = y then .isTrue (by rw [h]) else
        .isFalse (fun c => h (Except.ok.inj c))
    | .error x, .error y =>
      if h : x = y then .isTrue (by rw [h]) else
        .isFalse (fun c => h (Except.error.inj c))
    | .ok _, .error _ => .isFalse (fun c => Except.noConfusion c)
    | .error _, .ok _ => .isFalse (fun c => Except.noConfusion c)

/-- Python truthiness of an optional string argument: `None` and the empty
string are falsy. -/
def truthy : Option String → Bool
  | none => false
  | some v => v != ""

/-- `SharQ.enqueue`, `queue.py` lines 124 to 167: validate interval, job id,
queue id and queue type in that order, serialize the payload, stamp the
clock, and run the enqueue script on the quote-wrapped token; reply
`status: queued`. An omitted `queue_type` is the Python default
`'default'`. -/
def enqueue (cfg : Config) (payload : Payload) (interval : Int)
    (job_id queue_id : String) (queue_type : Option String) (s : Store) :
    Except SharqError Response × Store :=
  let qt := queue_type.getD "default"
  if ! is_valid_interval interval then
    (.error (.badArgument "`interval` has an invalid value."), s)
  else if ! is_valid_identifier job_id then
    (.error (.badArgument "`job_id` has an invalid value."), s)
  else if ! is_valid_identifier queue_id then
    (.error (.badArgument "`queue_id` has an invalid value."), s)
  else if ! is_valid_identifier qt then
    (.error (.badArgument "`queue_type` has an invalid value."), s)
  else
    match serialize_payload payload with
    | .error e => (.error (.badArgument e), s)
    | .ok sp =>
      let timestamp := generate_epoch s
      let s1 := luaEnqueue cfg.prefixKey qt timestamp queue_id job_id
        (quoteWrap sp) interval s
      (.ok [("status", .s "queued")], s1)

/-- `SharQ.dequeue`, `queue.py` lines 169 to 206: validate the queue type,
stamp the clock, run the dequeue script with the job expire interval; a reply
of fewer than three elements is `status: failure`, otherwise the reply is
unpacked as queue id, job id and payload token, and the token is deserialized
after the `[1:-1]` slice. -/
def dequeue (cfg : Config) (queue_type : Option String) (s : Store) :
    Except SharqError Response × Store :=
  let qt := queue_type.getD "default"
  if ! is_valid_identifier qt then
    (.error (.badArgument "`queue_type` has an invalid value."), s)
  else
    let timestamp := generate_epoch s
    let r := luaDequeue cfg.prefixKey qt timestamp cfg.job_expire_interval s
    match r.1 with
    | queue_id :: job_id :: payloadToken :: _ =>
      (.ok [("status", .s "success"), ("queue_id", .s queue_id),
            ("job_id", .s job_id),
            ("payload", .pl (deserialize_payload (pySlice1m1 payloadToken)))], r.2)
    | _ => (.ok [("status", .s "failure")], r.2)

/-- `SharQ.finish`, `queue.py` lines 208 to 243: validate job id, queue id
and queue type in that order, run the finish script; a script reply of `0`
turns the prepared success response into `status: failure`. -/
def finish (cfg : Config) (job_id queue_id : String)
    (queue_type : Option String) (s : Store) : Except SharqError Response × Store :=
  let qt := queue_type.getD "default"
  if ! is_valid_identifier job_id then
    (.error (.badArgument "`job_id` has an invalid value."), s)
  else if ! is_valid_identifier queue_id then
    (.error (.badArgument "`queue_id` has an invalid value."), s)
  else if ! is_valid_identifier qt then
    (.error (.badArgument "`queue_type` has an invalid value."), s)
  else
    let r := luaFinish cfg.prefixKey qt queue_id job_id s
    if r.1 == 0 then (.ok [("status", .s "failure")], r.2)
    else (.ok [("status", .s "success")], r.2)

/-- `SharQ.interval`, `queue.py` lines 245 to 281: validate interval, queue
id and queue type in that order and run the interval script; a script reply
of `0` is `status: failure`, anything else `status: success`. -/
def intervalOp (cfg : Config) (interval : Int) (queue_id : String)
    (queue_type : Option String) (s : Store) : Except SharqError Response × Store :=
  let qt := queue_type.getD "default"
  if ! is_valid_interval interval then
    (.error (.badArgument "`interval` has an invalid value."), s)
  else if ! is_valid_identifier queue_id then
    (.error (.badArgument "`queue_id` has an invalid value."), s)
  else if ! is_valid_identifier qt then
    (.error (.badArgument "`queue_type` has an invalid value."), s)
  else
    let r := luaInterval cfg.prefixKey qt queue_id interval s
    if r.1 == 0 then (.ok [("status", .s "failure")], r.2)
    else (.ok [("status", .s "success")], r.2)

/-- One observable step the requeue driver takes against the store: a clock
read, a `SMEMBERS` read, or one atomic script invocation with its keys and
its string arguments. -/
inductive Event where
  | clockRead (ts : Int)
  | smembersRead (key : String) (members : List String)
  | scriptCall (script : String) (keys : List String) (args : List String)
  deriving DecidableEq

/-- Whether an event is a clock read. -/
def Event.isClockRead : Event → Bool
  | .clockRead _ => true
  | _ => false

/-- `SharQ.requeue`, `queue.py` lines 283 to 306: it takes no arguments and
returns no reply. It stamps the clock once, reads the members of
`P:active:queue_type` on the client side, and for each member runs the
requeue script with keys `[P, queue_type]` and the one stringified timestamp
argument. Besides the final store the embedding returns the driver's event
trace in order. -/
def requeue (cfg : Config) (s : Store) : Store × List Event :=
  let timestamp := generate_epoch s
  let akey := cfg.prefixKey ++ ":active:queue_type"
  let activeQueueTypeList := s.activeTypes
  activeQueueTypeList.foldl
    (fun acc queue_type =>
      (luaRequeue cfg.prefixKey queue_type timestamp acc.1,
       acc.2 ++ [.scriptCall "requeue" [cfg.prefixKey, queue_type] [toString timestamp]]))
    (s, [.clockRead timestamp, .smembersRead akey activeQueueTypeList])

/-- `SharQ.metrics`, `queue.py` lines 308 to 418: validate a supplied queue
id and then a supplied queue type; dispatch on Python truthiness of the two
optional arguments into the global, the per-type, the per-tenant, or the
id-without-type error branch. The per-tenant branch's unused reads of the two
type registries are omitted; metrics never writes, so only the response is
returned. -/
def metrics (cfg : Config) (queue_type queue_id : Option String) (s : Store) :
    Except SharqError Response :=
  if queue_id.isSome && ! is_valid_identifier (queue_id.getD "") then
    .error (.badArgument "`queue_id` has an invalid value.")
  else if queue_type.isSome && ! is_valid_identifier (queue_type.getD "") then
    .error (.badArgument "`queue_type` has an invalid value.")
  else if ! truthy queue_type && ! truthy queue_id then
    let allQueueTypes := setUnion s.activeTypes s.readyTypes
    let timestamp := generate_epoch s
    let r := luaMetrics cfg.prefixKey timestamp s
    .ok [("status", .s "success"), ("queue_types", .ls allQueueTypes),
         ("enqueue_counts", .counts r.1), ("dequeue_counts", .counts r.2)]
  else if truthy queue_type && ! truthy queue_id then
    let qt := queue_type.getD ""
    let readyQueues := zrange ((mget s.readySets (cfg.prefixKey ++ ":" ++ qt)).getD [])
    let activeQueues :=
      (zrange ((mget s.activeSets (cfg.prefixKey ++ ":" ++ qt ++ ":active")).getD [])).map
        tokenQueueId
    .ok [("status", .s "success"), ("queue_ids", .ls (setUnion readyQueues activeQueues))]
  else if truthy queue_type && truthy queue_id then
    let qt := queue_type.getD ""
    let qid := queue_id.getD ""
    let base := cfg.prefixKey ++ ":" ++ qt ++ ":" ++ qid
    let timestamp := generate_epoch s
    let r := luaMetrics base timestamp s
    let queueLength := ((mget s.jobLists base).getD []).length
    .ok [("status", .s "success"), ("queue_length", .n (Int.ofNat queueLength)),
         ("enqueue_counts", .counts r.1), ("dequeue_counts", .counts r.2)]
  else
    .error (.badArgument "`queue_id` should be accompanied by `queue_type`.")

/-- A concrete configuration for concrete evaluations: key space `sharq`,
two-second visibility timeout. -/
def cfgEx : Config := ⟨"sharq", 2000⟩

/-- A concrete store with one in-flight job `j1` of tenant `q1` under type
`sms`, as left by a dequeue at epoch 3000 with the `cfgEx` timeout. -/
def storeW : Store :=
  { emptyStore with
      payloadMap := [("sms:q1:j1", "\"x\"")],
      activeSets := [("sharq:sms:active", [("q1:j1", 5000)])],
      activeTypes := ["sms"] }

theorem mget_mset_self {α : Type} (m : SMap α) (k : String) (v : α) :
    mget (mset m k v) k = some v := by
  have h1 : (m.filter (fun p => p.1 != k)).find? (fun p => p.1 == k) = none := by
    rw [List.find?_eq_none]
    intro p hp
    simp only [List.mem_filter, bne_iff_ne, ne_eq] at hp
    simpa using hp.2
  simp [mget, mset, List.find?_append, h1, List.find?_cons]

theorem zscore_zrem_self (z : SortedSet) (m : String) :
    zscore (zrem z m) m = none := by
  have h1 : (z.filter (fun p => p.1 != m)).find? (fun p => p.1 == m) = none := by
    rw [List.find?_eq_none]
    intro p hp
    simp only [List.mem_filter, bne_iff_ne, ne_eq] at hp
    simpa using hp.2
  simp [zscore, zrem, h1]

theorem pySlice1m1_quoteWrap (s : String) : pySlice1m1 (quoteWrap s) = s := by
  have hdata : (quoteWrap s).data = '"' :: (s.data ++ ['"']) := by
    simp [quoteWrap, String.data_append]
  simp only [pySlice1m1, hdata, List.drop_succ_cons, List.drop_zero,
    List.dropLast_concat]
  rfl

theorem mem_zinsert (q p : String × Int) (l : SortedSet) :
    q ∈ zinsert p l ↔ q = p ∨ q ∈ l := by
  induction l with
  | nil => simp [zinsert]
  | cons r rs ih =>
    by_cases hz : zOrder p r = true
    · simp only [zinsert, if_pos hz, List.mem_cons]
    · simp only [zinsert, if_neg hz, List.mem_cons, ih]
      tauto

theorem mem_zsort (q : String × Int) (l : SortedSet) : q ∈ zsort l ↔ q ∈ l := by
  induction l with
  | nil => simp [zsort]
  | cons r rs ih => simp [zsort, mem_zinsert, ih]

theorem mem_zrange (x : String) (z : SortedSet) :
    x ∈ zrange z ↔ ∃ sc, (x, sc) ∈ z := by
  simp only [zrange, List.mem_map, mem_zsort]
  constructor
  · rintro ⟨p, hp, rfl⟩
    exact ⟨p.2, hp⟩
  · rintro ⟨sc, hsc⟩
    exact ⟨(x, sc), hsc, rfl⟩

theorem mem_setUnion (x : String) (a b : List String) :
    x ∈ setUnion a b ↔ x ∈ a ∨ x ∈ b := by
  simp [setUnion, List.mem_dedup]

theorem valid_identifier_ne_empty {s : String} (h : is_valid_identifier s = true) :
    s ≠ "" := by
  intro he
  subst he
  simp [is_valid_identifier] at h

theorem luaDequeue_shape (P T : String) (now exp : Int) (s : Store) :
    (luaDequeue P T now exp s).1 = [] ∨
      ∃ Q J tok, (luaDequeue P T now exp s).1 = [Q, J, tok] := by
  unfold luaDequeue
  dsimp only
  split
  · exact .inl rfl
  · split
    · exact .inl rfl
    · split
      · exact .inl rfl
      · exact .inr ⟨_, _, _, rfl⟩

theorem requeue_trace_closed (P : String) (ts : Int) (types : List String)
    (st : Store) (tr : List Event) :
    (types.foldl (fun acc queue_type =>
        (luaRequeue P queue_type ts acc.1,
         acc.2 ++ [Event.scriptCall "requeue" [P, queue_type] [toString ts]]))
      (st, tr)).2
    = tr ++ types.map (fun t => Event.scriptCall "requeue" [P, t] [toString ts]) := by
  induction types generalizing st tr with
  | nil => simp
  | cons t rest ih => simp [ih]

theorem requeue_events (cfg : Config) (s : Store) :
    (requeue cfg s).2 =
      Event.clockRead (generate_epoch s) ::
        Event.smembersRead (cfg.prefixKey ++ ":active:queue_type") s.activeTypes ::
        s.activeTypes.map (fun t =>
          Event.scriptCall "requeue" [cfg.prefixKey, t] [toString (generate_epoch s)]) := by
  unfold requeue
  dsimp only
  rw [requeue_trace_closed]
  rfl

theorem luaFinish_absent (P T Q J : String) (s : Store)
    (h : zscore ((mget s.activeSets (P ++ ":" ++ T ++ ":active")).getD [])
      (Q ++ ":" ++ J) = none) :
    luaFinish P T Q J s = (0, s) := by
  unfold luaFinish
  dsimp only
  rw [if_pos (by simp [h])]

theorem luaFinish_succeeds_activeSets (P T Q J : String) (s : Store)
    (h : zscore ((mget s.activeSets (P ++ ":" ++ T ++ ":active")).getD [])
      (Q ++ ":" ++ J) ≠ none) :
    mget ((luaFinish P T Q J s).2).activeSets (P ++ ":" ++ T ++ ":active") =
      some (zrem ((mget s.activeSets (P ++ ":" ++ T ++ ":active")).getD [])
        (Q ++ ":" ++ J)) := by
  unfold luaFinish
  dsimp only
  rw [if_neg (by simpa using h)]
  dsimp only
  split
  · exact mget_mset_self ..
  · exact mget_mset_self ..

theorem luaFinish_twice (P T Q J : String) (s : Store)
    (h : zscore ((mget s.activeSets (P ++ ":" ++ T ++ ":active")).getD [])
      (Q ++ ":" ++ J) ≠ none) :
    luaFinish P T Q J (luaFinish P T Q J s).2 = (0, (luaFinish P T Q J s).2) := by
  apply luaFinish_absent
  simp [luaFinish_succeeds_activeSets P T Q J s h, zscore_zrem_self]

/-- C1: for every payload accepted by the codec, a dequeue that returns the
job enqueued with it yields an equal payload: the orchestrator wraps the
serialized payload in literal double quotes before the enqueue script and
strips exactly the first and the last character of the returned token before
deserializing, which composes with the codec round trip to the identity. The
theorem runs an enqueue on the empty store and dequeues it at any time not
before the enqueue. -/
theorem enqueue_dequeue_payload_roundtrip (cfg : Config) (v : String) (iv : Int)
    (T Q J : String) (now now2 : Int)
    (hiv : is_valid_interval iv = true) (hT : is_valid_identifier T = true)
    (hQ : is_valid_identifier Q = true) (hJ : is_valid_identifier J = true)
    (hle : now ≤ now2) :
    (dequeue cfg (some T)
      { (enqueue cfg (.str v) iv J Q (some T) { emptyStore with clock := now }).2
          with clock := now2 }).1
    = .ok [("status", RVal.s "success"), ("queue_id", RVal.s Q),
           ("job_id", RVal.s J), ("payload", RVal.pl (.str v))] := by
  have hnl : ¬ (now2 < now) := not_lt.mpr hle
  simp [enqueue, dequeue, luaEnqueue, luaDequeue, generate_epoch, emptyStore,
        hiv, hT, hQ, hJ, serialize_payload, mget, mset, zadd, zrem, zscore, zleast,
        hnl, pySlice1m1_quoteWrap, deserialize_payload]

/-- Witness for C1 at the spec's concrete scenario values. -/
theorem enqueue_dequeue_payload_roundtrip_witness :
    (dequeue cfgEx (some "sms")
      { (enqueue cfgEx (.str "hello") 5000 "j1" "q1" (some "sms")
          { emptyStore with clock := 0 }).2 with clock := 0 }).1
    = .ok [("status", RVal.s "success"), ("queue_id", RVal.s "q1"),
           ("job_id", RVal.s "j1"), ("payload", RVal.pl (.str "hello"))] :=
  enqueue_dequeue_payload_roundtrip cfgEx "hello" 5000 "sms" "q1" "j1" 0 0
    (by decide) (by decide) (by decide) (by decide) (by decide)

/-- C2: enqueue errors with a bad-argument exception exactly when the
interval, the job id, the queue id or the queue type fails validation or the
payload is unserializable; on an error the store is untouched; on valid,
validated input the reply is `status: queued` and never a failure. -/
theorem enqueue_bad_argument_iff (cfg : Config) (payload : Payload) (iv : Int)
    (jid qid qt : String) (s : Store) :
    ((∃ e, (enqueue cfg payload iv jid qid (some qt) s).1 = .error e) ↔
      (is_valid_interval iv = false ∨ is_valid_identifier jid = false ∨
       is_valid_identifier qid = false ∨ is_valid_identifier qt = false ∨
       payload = .unserializable))
    ∧ ((∃ e, (enqueue cfg payload iv jid qid (some qt) s).1 = .error e) →
        (enqueue cfg payload iv jid qid (some qt) s).2 = s)
    ∧ (is_valid_interval iv = true → is_valid_identifier jid = true →
       is_valid_identifier qid = true → is_valid_identifier qt = true →
       payload ≠ .unserializable →
       (enqueue cfg payload iv jid qid (some qt) s).1 =
         .ok [("status", RVal.s "queued")]) := by
  cases hiv : is_valid_interval iv <;> cases hj : is_valid_identifier jid <;>
    cases hq : is_valid_identifier qid <;> cases ht : is_valid_identifier qt <;>
      cases payload <;>
        simp [enqueue, hiv, hj, hq, ht, serialize_payload]

/-- Witness for C2 at the spec's concrete scenario values. -/
theorem enqueue_bad_argument_iff_witness :
    (enqueue cfgEx (.str "hello") 5000 "j1" "q1" (some "sms") emptyStore).1 =
      .ok [("status", RVal.s "queued")] :=
  (enqueue_bad_argument_iff cfgEx (.str "hello") 5000 "j1" "q1" "sms"
    emptyStore).2.2 (by decide) (by decide) (by decide) (by decide) (by decide)

/-- C3: with a valid queue type, the dequeue script's reply is either empty
or a three-element `[Q, J, token]`; the orchestrator's reply is the bare
`status: failure` dict exactly when the script reply has fewer than three
elements, and otherwise carries the script's queue id, job id and the
deserialized payload token. -/
theorem dequeue_reply_shape (cfg : Config) (qt : String) (s : Store)
    (h : is_valid_identifier qt = true) :
    ((luaDequeue cfg.prefixKey qt (generate_epoch s) cfg.job_expire_interval s).1 = [] ∨
      ∃ Q J tok, (luaDequeue cfg.prefixKey qt (generate_epoch s)
        cfg.job_expire_interval s).1 = [Q, J, tok])
    ∧ ((dequeue cfg (some qt) s).1 = .ok [("status", RVal.s "failure")] ↔
        (luaDequeue cfg.prefixKey qt (generate_epoch s) cfg.job_expire_interval s).1.length < 3)
    ∧ (∀ Q J tok,
        (luaDequeue cfg.prefixKey qt (generate_epoch s) cfg.job_expire_interval s).1 = [Q, J, tok] →
        dequeue cfg (some qt) s =
          (.ok [("status", RVal.s "success"), ("queue_id", RVal.s Q),
                ("job_id", RVal.s J),
                ("payload", RVal.pl (deserialize_payload (pySlice1m1 tok)))],
           (luaDequeue cfg.prefixKey qt (generate_epoch s) cfg.job_expire_interval s).2)) := by
  refine ⟨luaDequeue_shape _ _ _ _ _, ?_, ?_⟩
  · rcases luaDequeue_shape cfg.prefixKey qt (generate_epoch s) cfg.job_expire_interval s with
      h0 | ⟨Q, J, tok, h3⟩
    · simp [dequeue, h, h0]
    · simp [dequeue, h, h3]
  · intro Q J tok h3
    simp [dequeue, h, h3]

/-- Witness for C3: a dequeue from the empty store reports failure. -/
theorem dequeue_reply_shape_witness :
    (dequeue cfgEx (some "sms") emptyStore).1 = .ok [("status", RVal.s "failure")] :=
  ((dequeue_reply_shape cfgEx "sms" emptyStore (by decide)).2.1).mpr (by decide)

/-- C4: with valid identifiers, finish replies `status: failure` exactly when
the `"Q:J"` token is absent from the active set (the script replies `0`);
when the token is present, the first finish replies success and a second
finish for the same identifiers replies failure and leaves the state of the
first unchanged. -/
theorem finish_failure_iff (cfg : Config) (jid qid qt : String) (s : Store)
    (hj : is_valid_identifier jid = true) (hq : is_valid_identifier qid = true)
    (ht : is_valid_identifier qt = true) :
    ((finish cfg jid qid (some qt) s).1 = .ok [("status", RVal.s "failure")] ↔
      zscore ((mget s.activeSets (cfg.prefixKey ++ ":" ++ qt ++ ":active")).getD [])
        (qid ++ ":" ++ jid) = none)
    ∧ (zscore ((mget s.activeSets (cfg.prefixKey ++ ":" ++ qt ++ ":active")).getD [])
          (qid ++ ":" ++ jid) ≠ none →
        (finish cfg jid qid (some qt) s).1 = .ok [("status", RVal.s "success")] ∧
        finish cfg jid qid (some qt) ((finish cfg jid qid (some qt) s).2) =
          (.ok [("status", RVal.s "failure")], (finish cfg jid qid (some qt) s).2)) := by
  cases hz : zscore ((mget s.activeSets (cfg.prefixKey ++ ":" ++ qt ++ ":active")).getD [])
      (qid ++ ":" ++ jid) with
  | none =>
    constructor
    · simp [finish, luaFinish, hj, hq, ht, hz]
    · intro hne
      exact absurd rfl hne
  | some sc =>
    have hne : zscore ((mget s.activeSets (cfg.prefixKey ++ ":" ++ qt ++ ":active")).getD [])
        (qid ++ ":" ++ jid) ≠ none := by simp [hz]
    have htw := luaFinish_twice cfg.prefixKey qt qid jid s hne
    constructor
    · simp [finish, luaFinish, hj, hq, ht, hz]
    · intro _
      refine ⟨by simp [finish, luaFinish, hj, hq, ht, hz], ?_⟩
      have hfin : (finish cfg jid qid (some qt) s).2 =
          (luaFinish cfg.prefixKey qt qid jid s).2 := by
        simp [finish, luaFinish, hj, hq, ht, hz]
      rw [hfin]
      simp [finish, hj, hq, ht, htw]

/-- Witness for C4: finishing the one in-flight job of `storeW` succeeds and
a second finish fails without changing the state. -/
theorem finish_failure_iff_witness :
    (finish cfgEx "j1" "q1" (some "sms") storeW).1 =
      .ok [("status", RVal.s "success")] ∧
    finish cfgEx "j1" "q1" (some "sms") ((finish cfgEx "j1" "q1" (some "sms") storeW).2) =
      (.ok [("status", RVal.s "failure")], (finish cfgEx "j1" "q1" (some "sms") storeW).2) :=
  (finish_failure_iff cfgEx "j1" "q1" "sms" storeW (by decide) (by decide)
    (by decide)).2 (by decide)

/-- C5: requeue takes no operation arguments and returns no reply (its type
carries only the store and the event trace); its trace is the clock read, the
client-side `SMEMBERS` of `P:active:queue_type`, and then exactly one requeue
script call per enumerated type, and every script call's keys name the key
space and a single enumerated type. -/
theorem requeue_per_type_split (cfg : Config) (s : Store) :
    (requeue cfg s).2 =
      Event.clockRead (generate_epoch s) ::
        Event.smembersRead (cfg.prefixKey ++ ":active:queue_type") s.activeTypes ::
        s.activeTypes.map (fun t =>
          Event.scriptCall "requeue" [cfg.prefixKey, t] [toString (generate_epoch s)])
    ∧ (∀ nm ks ags, Event.scriptCall nm ks ags ∈ (requeue cfg s).2 →
        ∃ t, t ∈ s.activeTypes ∧ ks = [cfg.prefixKey, t]
          ∧ ags = [toString (generate_epoch s)]) := by
  refine ⟨requeue_events cfg s, ?_⟩
  intro nm ks ags hmem
  rw [requeue_events] at hmem
  simp only [List.mem_cons, List.mem_map] at hmem
  rcases hmem with h1 | h2 | ⟨t, ht, heq⟩
  · exact absurd h1 (by simp)
  · exact absurd h2 (by simp)
  · obtain ⟨-, h2, h3⟩ := Event.scriptCall.inj heq.symm
    exact ⟨t, ht, h2, h3⟩

/-- C6: a metrics call that supplies a queue id but no queue type raises a
bad-argument error rather than returning a reply, whether or not the queue
id is a valid identifier. -/
theorem metrics_id_without_type (cfg : Config) (qid : String) (s : Store) :
    ∃ msg, metrics cfg none (some qid) s = .error (.badArgument msg) := by
  cases hv : is_valid_identifier qid
  · exact ⟨"`queue_id` has an invalid value.", by simp [metrics, hv]⟩
  · refine ⟨"`queue_id` should be accompanied by `queue_type`.", ?_⟩
    have hne : qid ≠ "" := valid_identifier_ne_empty hv
    simp [metrics, hv, truthy, hne]

/-- C7: a metrics call with a valid queue type and no queue id replies
success with `queue_ids` whose members are exactly the union of the members
of the ready sorted set `P:T` and the part before the first colon of each
`"Q:J"` token of the active sorted set `P:T:active`; in this sequential
embedding both sorted sets are read from the one store snapshot, as the
pipelined transaction of the source does. -/
theorem metrics_per_type_queue_ids (cfg : Config) (qt : String) (s : Store)
    (h : is_valid_identifier qt = true) :
    metrics cfg (some qt) none s =
      .ok [("status", RVal.s "success"),
           ("queue_ids", RVal.ls (setUnion
              (zrange ((mget s.readySets (cfg.prefixKey ++ ":" ++ qt)).getD []))
              ((zrange ((mget s.activeSets (cfg.prefixKey ++ ":" ++ qt ++ ":active")).getD [])).map
                tokenQueueId)))]
    ∧ ∀ x, (x ∈ setUnion
              (zrange ((mget s.readySets (cfg.prefixKey ++ ":" ++ qt)).getD []))
              ((zrange ((mget s.activeSets (cfg.prefixKey ++ ":" ++ qt ++ ":active")).getD [])).map
                tokenQueueId)
        ↔ ((∃ sc, (x, sc) ∈ (mget s.readySets (cfg.prefixKey ++ ":" ++ qt)).getD []) ∨
           (∃ tok sc,
              (tok, sc) ∈ (mget s.activeSets (cfg.prefixKey ++ ":" ++ qt ++ ":active")).getD []
              ∧ x = tokenQueueId tok))) := by
  have hne : qt ≠ "" := valid_identifier_ne_empty h
  constructor
  · simp [metrics, h, truthy, hne]
  · intro x
    simp only [mem_setUnion, mem_zrange, List.mem_map]
    constructor
    · rintro (h1 | ⟨a, ⟨sc, ha⟩, rfl⟩)
      · exact .inl h1
      · exact .inr ⟨a, sc, ha, rfl⟩
    · rintro (h1 | ⟨tok, sc, ha, rfl⟩)
      · exact .inl h1
      · exact .inr ⟨tok, ⟨sc, ha⟩, rfl⟩

/-- Witness for C7: per-type metrics on `storeW` lists the one tenant with
in-flight work. -/
theorem metrics_per_type_queue_ids_witness :
    metrics cfgEx (some "sms") none storeW =
      .ok [("status", RVal.s "success"), ("queue_ids", RVal.ls ["q1"])] := by
  rw [(metrics_per_type_queue_ids cfgEx "sms" storeW (by decide)).1]
  rfl

/-- C8 as stated is false: omitting `queue_type` does not behave like
passing `"default"` for metrics, whose Python default is `None` and selects
the global mode rather than the per-type mode of type `default`. -/
theorem metrics_omitted_queue_type_counterexample :
    metrics cfgEx none none emptyStore ≠
      metrics cfgEx (some "default") none emptyStore := by
  decide

/-- C8 amended: omitting `queue_type` behaves exactly as passing
`"default"` for enqueue, dequeue, finish and interval; metrics is the
exception, defaulting its `queue_type` to the Python `None` instead. -/
theorem queue_type_default_four_ops (cfg : Config) (payload : Payload) (iv : Int)
    (jid qid : String) (s : Store) :
    enqueue cfg payload iv jid qid none s = enqueue cfg payload iv jid qid (some "default") s
    ∧ dequeue cfg none s = dequeue cfg (some "default") s
    ∧ finish cfg jid qid none s = finish cfg jid qid (some "default") s
    ∧ intervalOp cfg iv qid none s = intervalOp cfg iv qid (some "default") s :=
  ⟨rfl, rfl, rfl, rfl⟩

/-- C9: metrics validates any supplied queue id and queue type identifier
before dispatching on mode, for every store (so without reading it): an
invalid supplied queue id raises the invalid-value bad-argument error for
every queue type argument, preempting the id-without-type error; and an
invalid supplied queue type, with the queue id absent or valid, raises the
queue type's invalid-value error. -/
theorem metrics_validates_before_dispatch (cfg : Config) (s : Store) :
    (∀ (qt : Option String) (qid : String), is_valid_identifier qid = false →
      metrics cfg qt (some qid) s =
        .error (.badArgument "`queue_id` has an invalid value."))
    ∧ (∀ (qt : String) (qid : Option String), is_valid_identifier qt = false →
        (∀ q, qid = some q → is_valid_identifier q = true) →
        metrics cfg (some qt) qid s =
          .error (.badArgument "`queue_type` has an invalid value.")) := by
  constructor
  · intro qt qid h
    simp [metrics, h]
  · intro qt qid ht hq
    cases qid with
    | none => simp [metrics, ht]
    | some q => simp [metrics, ht, hq q rfl]

/-- Witness for C9: a malformed queue id without a queue type draws the
invalid-value error, not the id-without-type error; a malformed queue type
beside a valid queue id draws the queue type's invalid-value error. -/
theorem metrics_validates_before_dispatch_witness :
    metrics cfgEx none (some "bad id") emptyStore =
      .error (.badArgument "`queue_id` has an invalid value.") ∧
    metrics cfgEx (some "bad id") (some "q1") emptyStore =
      .error (.badArgument "`queue_type` has an invalid value.") :=
  ⟨(metrics_validates_before_dispatch cfgEx emptyStore).1 none "bad id" (by decide),
   (metrics_validates_before_dispatch cfgEx emptyStore).2 "bad id" (some "q1")
     (by decide) (by intro q hq; injection hq with h; subst h; decide)⟩

/-- C10: requeue reads the clock exactly once, as the first event of its
trace and before the enumeration of the active queue types, and every script
invocation of the pass receives that same stringified timestamp as its one
argument. -/
theorem requeue_single_timestamp (cfg : Config) (s : Store) :
    ((requeue cfg s).2.filter Event.isClockRead = [Event.clockRead (generate_epoch s)])
    ∧ ((requeue cfg s).2.take 2 =
        [Event.clockRead (generate_epoch s),
         Event.smembersRead (cfg.prefixKey ++ ":active:queue_type") s.activeTypes])
    ∧ (∀ nm ks ags, Event.scriptCall nm ks ags ∈ (requeue cfg s).2 →
        ags = [toString (generate_epoch s)]) := by
  refine ⟨?_, ?_, ?_⟩
  · rw [requeue_events]
    simp [Event.isClockRead, List.filter_map, Function.comp]
  · rw [requeue_events]
    rfl
  · intro nm ks ags hmem
    rw [requeue_events] at hmem
    simp only [List.mem_cons, List.mem_map] at hmem
    rcases hmem with h1 | h2 | ⟨t, ht, heq⟩
    · exact absurd h1 (by simp)
    · exact absurd h2 (by simp)
    · exact (Event.scriptCall.inj heq.symm).2.2

end Sharq
